import Mathlib

/-
  Verification development for the EPL complaints pipeline.

  Shallow embedding of the two source files:
  - src/setup-database-ia.js : seed catalog data, the SQL functions
    analizar_sentimiento_basico and buscar_sucursales_inteligente, and the
    AnalizadorQuejas class of the embedded AI server (normalizer,
    categorizer, urgency calculator, keyword extractor, transactional
    pipeline procesarQuejaConIA).
  - src/unnamed/part_000 : the basic webhook server (inline sentiment
    lookup, simple branch search, simple urgency computation, direct
    inserts without a transaction).

  Strings are modelled as Lean strings (lists of characters); JavaScript
  values that may be non-strings are modelled by the JSVal type below.
  SQL LOWER and JavaScript toLowerCase are both modelled by sqlLower
  (ASCII case folding plus the accented capitals occurring in the data).
  SQL LIKE with a pattern of the shape anything-inside-two-percent-signs
  is modelled as substring containment (no keyword in the source contains
  a wildcard character).
-/

namespace EplQuejas

/-- Model of a JavaScript field value: a string or a number.  `none` at use
sites stands for an absent field (`undefined`). -/
inductive JSVal where
  | vstr (s : String)
  | vnum (n : Int)
deriving DecidableEq

/-- JavaScript truthiness for the modelled values: the empty string and 0
are falsy, everything else is truthy. -/
def jsTruthy : JSVal → Bool
  | .vstr s => s != ""
  | .vnum n => n != 0

/-- JavaScript `toString()` on the modelled values. -/
def jsToString : JSVal → String
  | .vstr s => s
  | .vnum n => toString n

/-- `a || b` on possibly-absent JavaScript values: the left value when it is
present and truthy, otherwise the right one. -/
def jsOr (a b : Option JSVal) : Option JSVal :=
  match a with
  | some v => if jsTruthy v then some v else b
  | none => b

/-- Case folding used for both SQL LOWER and JavaScript toLowerCase:
ASCII letters plus the accented capital letters occurring in the data. -/
def lowerChar (c : Char) : Char :=
  if c = 'Á' then 'á' else if c = 'É' then 'é' else if c = 'Í' then 'í'
  else if c = 'Ó' then 'ó' else if c = 'Ú' then 'ú' else if c = 'Ñ' then 'ñ'
  else if c = 'Ü' then 'ü' else c.toLower

def sqlLower (s : String) : String := String.mk (s.toList.map lowerChar)

/-- `prefijoDe p h` : the character list `p` starts the character list `h`. -/
def prefijoDe : List Char → List Char → Bool
  | [], _ => true
  | _ :: _, [] => false
  | p :: ps, h :: hs => p == h && prefijoDe ps hs

/-- `infijoDe p h` : the character list `p` occurs contiguously in `h`. -/
def infijoDe (pat : List Char) : List Char → Bool
  | [] => prefijoDe pat []
  | c :: hs => prefijoDe pat (c :: hs) || infijoDe pat hs

/-- Substring containment: JavaScript `hay.includes(pat)` and SQL
`hay LIKE %pat%` (percent signs around `pat`) for wildcard-free `pat`. -/
def containsSub (hay pat : String) : Bool := infijoDe pat.toList hay.toList

/-- Result row of the SQL function analizar_sentimiento_basico. -/
structure Sentimiento where
  sentimiento : String
  score : Rat
deriving DecidableEq

/-- The fixed negative keyword list of analizar_sentimiento_basico. -/
def palabras_negativas : List String :=
  ["malo", "terrible", "horrible", "asqueroso", "pésimo", "nunca", "jamás", "odio"]

/-- The fixed positive keyword list of analizar_sentimiento_basico. -/
def palabras_positivas : List String :=
  ["bueno", "excelente", "rico", "sabroso", "recomiendo", "perfecto", "genial"]

/-- The SQL function analizar_sentimiento_basico: lowercase the text, count
the negative and the positive keywords present as substrings (one FOREACH
loop per list, incrementing a counter), then classify.  Scores −0.8, −0.4,
0.6 and 0.0 are written as exact rationals. -/
def analizar_sentimiento_basico (texto : String) : Sentimiento :=
  let texto_lower := sqlLower texto
  let score_neg := palabras_negativas.foldl
    (fun acc palabra => if containsSub texto_lower palabra then acc + 1 else acc) 0
  let score_pos := palabras_positivas.foldl
    (fun acc palabra => if containsSub texto_lower palabra then acc + 1 else acc) 0
  if score_neg > score_pos + 1 then ⟨"muy_negativo", -(4 / 5 : Rat)⟩
  else if score_neg > score_pos then ⟨"negativo", -(2 / 5 : Rat)⟩
  else if score_pos > score_neg then ⟨"positivo", (3 / 5 : Rat)⟩
  else ⟨"neutral", 0⟩

/-- Number of distinct negative keywords present in the text (substring
test on the lowercased text). -/
def negCount (texto : String) : Nat :=
  (palabras_negativas.filter (fun palabra => containsSub (sqlLower texto) palabra)).length

/-- Number of distinct positive keywords present in the text. -/
def posCount (texto : String) : Nat :=
  (palabras_positivas.filter (fun palabra => containsSub (sqlLower texto) palabra)).length

theorem foldl_conteo (p : String → Bool) (l : List String) (n : Nat) :
    l.foldl (fun acc palabra => if p palabra then acc + 1 else acc) n
      = n + (l.filter p).length := by
  induction l generalizing n with
  | nil => simp
  | cons x xs ih =>
      by_cases h : p x
      · simp [List.filter_cons, h, ih]
        omega
      · simp [List.filter_cons, h, ih]

/-- Claim C2: for every text, the sentiment scorer counts the distinct
negative and positive keywords present as case-insensitive substrings
(negCount, posCount) and returns exactly: (muy_negativo, −0.8) when
negCount > posCount + 1; (negativo, −0.4) when negCount > posCount but not
above; (positivo, +0.6) when posCount > negCount; and (neutral, 0.0)
otherwise, including the empty text and the 0/0 tie. -/
theorem c2_sentimiento (texto : String) :
    analizar_sentimiento_basico texto =
      (if negCount texto > posCount texto + 1 then ⟨"muy_negativo", -(4 / 5 : Rat)⟩
       else if negCount texto > posCount texto then ⟨"negativo", -(2 / 5 : Rat)⟩
       else if posCount texto > negCount texto then ⟨"positivo", (3 / 5 : Rat)⟩
       else ⟨"neutral", 0⟩) := by
  unfold analizar_sentimiento_basico negCount posCount
  simp only [foldl_conteo]
  simp

/-! ## Categorizer (AnalizadorQuejas.cargarCaches and categorizarQueja) -/

/-- One row of the cache query
`SELECT c.id, c.nombre, sc.nombre as subcategoria, sc.keywords FROM
categorias_quejas c LEFT JOIN subcategorias_quejas sc ...`.
The query selects no `sc.id` column, so a row carries only the
subcategory name and keywords (`keywords` is NULL on the outer rows). -/
structure CatRow where
  id : Nat
  nombre : String
  subcategoria : Option String
  keywords : Option (List String)
deriving DecidableEq

/-- A cache subcategory entry, exactly the object pushed by cargarCaches:
`{ nombre: row.subcategoria, keywords: row.keywords || [] }`.
There is no `id` field. -/
structure Subcategoria where
  nombre : String
  keywords : List String
deriving DecidableEq

/-- A cache category entry: `{ id, nombre, subcategorias: [] }` plus the
subcategories pushed afterwards. -/
structure Categoria where
  id : Nat
  nombre : String
  subcategorias : List Subcategoria
deriving DecidableEq

/-- One step of the cargarCaches row loop: create the category entry when
its id is new (insertion order = row order), then push the subcategory
entry when the row has one. -/
def agregarFila (cache : List Categoria) (row : CatRow) : List Categoria :=
  let cache1 :=
    if cache.any (fun c => c.id == row.id) then cache
    else cache ++ [⟨row.id, row.nombre, []⟩]
  match row.subcategoria with
  | none => cache1
  | some subnombre =>
      cache1.map (fun c =>
        if c.id == row.id then
          { c with subcategorias := c.subcategorias ++ [⟨subnombre, row.keywords.getD []⟩] }
        else c)

/-- cargarCaches over the category rows (the Map keyed by category id is
modelled as a list in insertion order; the source query has no ORDER BY,
the embedding takes the row order as given). -/
def cargarCachesCategorias (rows : List CatRow) : List Categoria :=
  rows.foldl agregarFila []

/-- Result object of categorizarQueja.  `subcategoria_id` models the
JavaScript read `subcategoria.id`: the cache entries carry no `id` field,
so the read yields `undefined`, modelled as `none`.  `descripcion` models
the read `categoria.descripcion` performed later by calcularUrgencia: the
object literals returned by categorizarQueja have no such key, so it is
always `none`. -/
structure Categorizacion where
  categoria_id : Nat
  categoria_nombre : String
  subcategoria_id : Option Nat
  subcategoria_nombre : Option String
  keyword_encontrada : Option String
  descripcion : Option String
deriving DecidableEq

/-- Innermost loop of categorizarQueja: first keyword of the list that the
lowercased text contains (the keyword is lowercased for the test, the
original keyword is returned). -/
def buscarKeyword (descLower : String) (keywords : List String) : Option String :=
  keywords.find? (fun keyword => containsSub descLower (sqlLower keyword))

/-- Middle loop: first subcategory (in push order) with a matching keyword. -/
def buscarSubcat (descLower : String) : List Subcategoria → Option (Subcategoria × String)
  | [] => none
  | sc :: rest =>
      match buscarKeyword descLower sc.keywords with
      | some k => some (sc, k)
      | none => buscarSubcat descLower rest

/-- Outer loop: first category (in cache order) with a matching
subcategory; builds the returned object. -/
def buscarCat (descLower : String) : List Categoria → Option Categorizacion
  | [] => none
  | c :: rest =>
      match buscarSubcat descLower c.subcategorias with
      | some (sc, k) => some ⟨c.id, c.nombre, none, some sc.nombre, some k, none⟩
      | none => buscarCat descLower rest

/-- The fixed default result of categorizarQueja when no keyword matches. -/
def categoriaPorDefecto : Categorizacion :=
  ⟨10, "Satisfacción General", none, none, none, none⟩

/-- AnalizadorQuejas.categorizarQueja: lowercase the text, run the triple
loop over categories, subcategories and keywords, return on the first
match, and fall back to the fixed default category. -/
def categorizarQueja (cache : List Categoria) (descripcion : String) : Categorizacion :=
  let descripcionLower := sqlLower descripcion
  match buscarCat descripcionLower cache with
  | some r => r
  | none => categoriaPorDefecto

/-- Specification-side characterization for claim C4: the flat list of all
(category, subcategory, keyword) triples in registration order. -/
def tripletas (cache : List Categoria) : List (Categoria × Subcategoria × String) :=
  cache.flatMap (fun c =>
    c.subcategorias.flatMap (fun sc => sc.keywords.map (fun k => (c, sc, k))))

/-- Specification-side characterization for claim C4: the first triple (in
registration order) whose keyword the lowercased text contains. -/
def primeraCoincidencia (cache : List Categoria) (descripcion : String) :
    Option (Categoria × Subcategoria × String) :=
  (tripletas cache).find? (fun t => containsSub (sqlLower descripcion) (sqlLower t.2.2))

theorem buscarSubcat_eq_find (descLower : String) (subcats : List Subcategoria) :
    buscarSubcat descLower subcats
      = ((subcats.flatMap (fun sc => sc.keywords.map (fun k => (sc, k)))).find?
          (fun t => containsSub descLower (sqlLower t.2))) := by
  induction subcats with
  | nil => rfl
  | cons sc rest ih =>
      simp only [buscarSubcat, List.flatMap_cons, List.find?_append]
      rw [List.find?_map]
      unfold buscarKeyword
      cases h : sc.keywords.find? (fun keyword => containsSub descLower (sqlLower keyword)) with
      | none =>
          have : (sc.keywords.find?
              ((fun t : Subcategoria × String => containsSub descLower (sqlLower t.2)) ∘
                (fun k => (sc, k)))) = none := by
            rw [← h]; rfl
          simp [this, ih]
      | some k =>
          have : (sc.keywords.find?
              ((fun t : Subcategoria × String => containsSub descLower (sqlLower t.2)) ∘
                (fun k => (sc, k)))) = some k := by
            rw [← h]; rfl
          simp [this]

theorem buscarCat_eq_find (descLower : String) (cache : List Categoria) :
    buscarCat descLower cache
      = ((cache.flatMap (fun c =>
            c.subcategorias.flatMap (fun sc => sc.keywords.map (fun k => (c, sc, k))))).find?
          (fun t => containsSub descLower (sqlLower t.2.2))).map
          (fun t => ⟨t.1.id, t.1.nombre, none, some t.2.1.nombre, some t.2.2, none⟩) := by
  induction cache with
  | nil => rfl
  | cons c rest ih =>
      simp only [buscarCat, List.flatMap_cons, List.find?_append]
      have inner : (c.subcategorias.flatMap (fun sc => sc.keywords.map (fun k => (c, sc, k))))
          = ((c.subcategorias.flatMap (fun sc => sc.keywords.map (fun k => (sc, k)))).map
              (fun t => (c, t.1, t.2))) := by
        simp [List.map_flatMap, List.map_map]
        rfl
      rw [inner, List.find?_map]
      rw [buscarSubcat_eq_find]
      cases h : ((c.subcategorias.flatMap (fun sc => sc.keywords.map (fun k => (sc, k)))).find?
          (fun t => containsSub descLower (sqlLower t.2))) with
      | none =>
          have : ((c.subcategorias.flatMap (fun sc => sc.keywords.map (fun k => (sc, k)))).find?
              ((fun t : Categoria × Subcategoria × String =>
                containsSub descLower (sqlLower t.2.2)) ∘ (fun t => (c, t.1, t.2)))) = none := by
            rw [← h]; rfl
          simp [this, ih]
      | some t =>
          have : ((c.subcategorias.flatMap (fun sc => sc.keywords.map (fun k => (sc, k)))).find?
              ((fun t : Categoria × Subcategoria × String =>
                containsSub descLower (sqlLower t.2.2)) ∘ (fun t => (c, t.1, t.2)))) = some t := by
            rw [← h]; rfl
          simp [this]

/-- Claim C4: for every cache and text, the categorizer returns the result
of the first keyword match encountered when iterating categories in
registration order, their subcategories in registration order, and each
keyword list in list order (case-insensitive substring test); when two
subcategories both match, the earlier-registered one wins (the result is
determined by the first triple of the flattened registration-ordered
list); and when no keyword matches, it returns the fixed default category
Satisfacción General with no subcategory and no matched keyword. -/
theorem c4_categorizador_primera_coincidencia (cache : List Categoria) (descripcion : String) :
    categorizarQueja cache descripcion =
      (match primeraCoincidencia cache descripcion with
       | some t => ⟨t.1.id, t.1.nombre, none, some t.2.1.nombre, some t.2.2, none⟩
       | none => categoriaPorDefecto) := by
  unfold categorizarQueja primeraCoincidencia tripletas
  simp only [buscarCat_eq_find]
  cases h : ((cache.flatMap (fun c =>
      c.subcategorias.flatMap (fun sc => sc.keywords.map (fun k => (c, sc, k))))).find?
      (fun t => containsSub (sqlLower descripcion) (sqlLower t.2.2))) <;> simp [h]

/-! ## Seeded catalog (setup script inserts) -/

/-- The rows of the cache query over the seeded categorias_quejas and
subcategorias_quejas data of the setup script (LEFT JOIN: categories
without subcategories appear once with NULL subcategory and keywords).
The source query has no ORDER BY; the rows are listed in insertion order. -/
def catRowsSeed : List CatRow :=
  [⟨1, "Calidad del Producto", some "Comida Fría",
      some ["frio", "fría", "temperatura", "caliente", "tibio"]⟩,
   ⟨1, "Calidad del Producto", some "Pollo Crudo",
      some ["crudo", "rosa", "sangre", "mal cocido", "rojo"]⟩,
   ⟨1, "Calidad del Producto", some "Sabor Desagradable",
      some ["malo", "sabor", "feo", "horrible", "raro"]⟩,
   ⟨2, "Servicio al Cliente", some "Demora Excesiva",
      some ["espera", "demora", "tarde", "lento", "tiempo"]⟩,
   ⟨2, "Servicio al Cliente", some "Personal Grosero",
      some ["grosero", "mala actitud", "descortés", "mal trato"]⟩,
   ⟨3, "Higiene y Limpieza", some "Restaurante Sucio",
      some ["sucio", "cochino", "limpieza", "asqueroso"]⟩,
   ⟨3, "Higiene y Limpieza", some "Baños Sucios",
      some ["baño", "sanitario", "wc", "sucio"]⟩,
   ⟨4, "Precio y Facturación", some "Cobro Incorrecto",
      some ["cobro", "precio", "factura", "caro", "cuenta"]⟩,
   ⟨5, "Infraestructura", none, none⟩,
   ⟨6, "Entrega a Domicilio", some "Delivery Tardío",
      some ["delivery", "domicilio", "entrega", "tardó"]⟩,
   ⟨7, "Promociones", none, none⟩,
   ⟨8, "Personal", none, none⟩,
   ⟨9, "Tecnología", some "App No Funciona",
      some ["app", "aplicación", "celular", "no funciona"]⟩,
   ⟨10, "Satisfacción General", none, none⟩]

/-- The category cache as loaded from the seeded rows. -/
def categoriasCacheSeed : List Categoria := cargarCachesCategorias catRowsSeed

/-- Claim C8: the text "la comida estaba fría" matches the keyword "fría"
of the subcategory Comida Fría, and the categorizer result carries the
subcategory name — but its subcategoria_id is undefined (none): the
cargarCaches query never selects sc.id, so the `subcategoria.id` read in
categorizarQueja is a read of a field the cache objects do not have.  The
claim that subcategoryId identifies the matched subcategory fails on every
match. -/
theorem c8_subcategoria_sin_id :
    (categorizarQueja categoriasCacheSeed "la comida estaba fría").subcategoria_nombre
        = some "Comida Fría"
      ∧ (categorizarQueja categoriasCacheSeed "la comida estaba fría").keyword_encontrada
        = some "fría"
      ∧ (categorizarQueja categoriasCacheSeed "la comida estaba fría").subcategoria_id
        = none := by
  refine ⟨?_, ?_, ?_⟩ <;> rfl

/-! ## Urgency (AnalizadorQuejas.calcularUrgencia and the basic webhook) -/

/-- The emergency keyword list of calcularUrgencia. -/
def palabrasUrgentes : List String :=
  ["intoxicación", "enfermo", "vómito", "ambulancia", "hospital"]

/-- AnalizadorQuejas.calcularUrgencia: base 1, +2 / +1 for muy_negativo /
negativo, name-keyed category bonuses, then the emergency check — which
reads `categoria.descripcion`, a field the categorization object never
carries (it is the categorizarQueja result, not the complaint text), so
the lowercased string defaults to the empty string via the or-empty fallback.  The result
is capped at 5. -/
def calcularUrgencia (sentimiento : Sentimiento) (categoria : Categorizacion) : Nat :=
  let urgencia1 : Nat := 1
  let urgencia2 := urgencia1 +
    (if sentimiento.sentimiento = "muy_negativo" then 2
     else if sentimiento.sentimiento = "negativo" then 1 else 0)
  let urgencia3 := urgencia2 +
    (if categoria.categoria_nombre = "Higiene y Limpieza" then 2
     else if categoria.categoria_nombre = "Calidad del Producto" then 1
     else if categoria.categoria_nombre = "Personal" then 1 else 0)
  let descripcionLower := (categoria.descripcion.map sqlLower).getD ""
  let urgencia4 :=
    if palabrasUrgentes.any (fun palabra => containsSub descripcionLower palabra) then 5
    else urgencia3
  min urgencia4 5

/-- The urgent-word list of the basic webhook server. -/
def palabrasUrgentesSimple : List String :=
  ["horrible", "asqueroso", "intoxicación", "enfermo"]

/-- Urgency computation of the basic webhook (src/unnamed/part_000, step
4): direct mapping from the sentiment label, then an override to 5 when
the complaint description contains an urgent word. -/
def urgenciaSimple (sentimiento : Sentimiento) (descripcion : String) : Nat :=
  let urgencia :=
    if sentimiento.sentimiento = "muy_negativo" then 4
    else if sentimiento.sentimiento = "negativo" then 3
    else if sentimiento.sentimiento = "positivo" then 1 else 1
  if palabrasUrgentesSimple.any (fun palabra => containsSub (sqlLower descripcion) palabra) then 5
  else urgencia

/-- Claim C3: a complaint text containing the emergency keyword
"intoxicación" does not force urgency 5 in calcularUrgencia.  The text
below matches no category keyword and no sentiment keyword; the pipeline
calls calcularUrgencia with the neutral sentiment and the categorization
result, and the emergency check inspects `categoria.descripcion` — absent
from every categorization object — so the computed urgency is 1, not 5. -/
theorem c3_urgencia_emergencia_muerta :
    containsSub (sqlLower "necesito una ambulancia por intoxicación") "intoxicación" = true
      ∧ (categorizarQueja categoriasCacheSeed
          "necesito una ambulancia por intoxicación").descripcion = none
      ∧ calcularUrgencia ⟨"neutral", 0⟩
          (categorizarQueja categoriasCacheSeed "necesito una ambulancia por intoxicación") = 1 := by
  refine ⟨?_, ?_, ?_⟩ <;> rfl

/-- The name-keyed category bonus of calcularUrgencia, as a helper for
stating when the two urgency computations agree. -/
def bonusCategoria (categoria : Categorizacion) : Nat :=
  if categoria.categoria_nombre = "Higiene y Limpieza" then 2
  else if categoria.categoria_nombre = "Calidad del Producto" then 1
  else if categoria.categoria_nombre = "Personal" then 1 else 0

/-- Whether the description contains one of the urgent
words. -/
def tieneUrgenteSimple (descripcion : String) : Bool :=
  palabrasUrgentesSimple.any (fun palabra => containsSub (sqlLower descripcion) palabra)

/-- Claim C10, counterexample: for the sentiment muy_negativo, the default
category and a description with no urgent word, the basic webhook computes
urgency 4 while calcularUrgencia computes 3 — the two implementations do
not compute the same urgency. -/
theorem c10_contraejemplo :
    urgenciaSimple ⟨"muy_negativo", -(4 / 5 : Rat)⟩ "la porción era pequeña" = 4
      ∧ calcularUrgencia ⟨"muy_negativo", -(4 / 5 : Rat)⟩ categoriaPorDefecto = 3
      ∧ urgenciaSimple ⟨"muy_negativo", -(4 / 5 : Rat)⟩ "la porción era pequeña"
        ≠ calcularUrgencia ⟨"muy_negativo", -(4 / 5 : Rat)⟩ categoriaPorDefecto := by
  refine ⟨rfl, rfl, by decide⟩

/-- Claim C10, amended: for categorization objects as produced by
categorizarQueja (no descripcion field, so the calcularUrgencia emergency
override is inert), the two urgency computations agree exactly when:
the description has an urgent word, the sentiment is muy_negativo and the
category bonus is 2; or the description has no urgent word and either a
(muy_)negativo sentiment meets a bonus-1 category, or a non-negative
sentiment meets a bonus-0 category.  In every other case they differ. -/
theorem c10_equivalencia_enmendada (s : Sentimiento) (categoria : Categorizacion)
    (descripcion : String) (h : categoria.descripcion = none) :
    (urgenciaSimple s descripcion = calcularUrgencia s categoria ↔
      (if tieneUrgenteSimple descripcion = true then
        s.sentimiento = "muy_negativo" ∧ bonusCategoria categoria = 2
      else if s.sentimiento = "muy_negativo" ∨ s.sentimiento = "negativo" then
        bonusCategoria categoria = 1
      else bonusCategoria categoria = 0)) := by
  have hdead : (palabrasUrgentes.any fun palabra => containsSub "" palabra) = false := by decide
  have hcal : calcularUrgencia s categoria
      = min (1 + (if s.sentimiento = "muy_negativo" then 2
            else if s.sentimiento = "negativo" then 1 else 0) + bonusCategoria categoria) 5 := by
    unfold calcularUrgencia bonusCategoria
    rw [h]
    simp [hdead]
  have hsim : urgenciaSimple s descripcion
      = if tieneUrgenteSimple descripcion = true then 5
        else if s.sentimiento = "muy_negativo" then 4
        else if s.sentimiento = "negativo" then 3 else 1 := by
    unfold urgenciaSimple tieneUrgenteSimple
    split_ifs <;> rfl
  have hb : bonusCategoria categoria = 0 ∨ bonusCategoria categoria = 1
      ∨ bonusCategoria categoria = 2 := by
    unfold bonusCategoria
    split_ifs <;> simp
  rw [hcal, hsim]
  by_cases hu : tieneUrgenteSimple descripcion = true <;>
    by_cases hmn : s.sentimiento = "muy_negativo" <;>
      by_cases hng : s.sentimiento = "negativo" <;>
        simp only [hu, hmn, hng, if_true, if_false, eq_self_iff_true, true_and, false_and,
          true_or, or_true, false_or, or_false, if_pos, Bool.false_eq_true] <;>
        simp_all <;> omega

/-- Claim C10, witness for the amended equivalence at a concrete input:
the neutral sentiment, the default category and an urgent-word-free
description satisfy the hypothesis and the agreement condition. -/
theorem c10_testigo :
    categoriaPorDefecto.descripcion = none
      ∧ (urgenciaSimple ⟨"neutral", 0⟩ "todo bien"
            = calcularUrgencia ⟨"neutral", 0⟩ categoriaPorDefecto ↔
          (if tieneUrgenteSimple "todo bien" = true then
            (⟨"neutral", 0⟩ : Sentimiento).sentimiento = "muy_negativo"
              ∧ bonusCategoria categoriaPorDefecto = 2
          else if (⟨"neutral", 0⟩ : Sentimiento).sentimiento = "muy_negativo"
              ∨ (⟨"neutral", 0⟩ : Sentimiento).sentimiento = "negativo" then
            bonusCategoria categoriaPorDefecto = 1
          else bonusCategoria categoriaPorDefecto = 0)) :=
  ⟨rfl, c10_equivalencia_enmendada ⟨"neutral", 0⟩ categoriaPorDefecto "todo bien" rfl⟩

/-! ## Keyword extraction (AnalizadorQuejas.extraerPalabrasClave) -/

/-- A JavaScript regex word character: letter, digit or underscore. -/
def jsWordChar (c : Char) : Bool := c.isAlpha || c.isDigit || c == '_'

/-- Lowercase hexadecimal digit (tokens are lowercased before the test). -/
def esHexCh (c : Char) : Bool := c.isDigit || ('a' ≤ c && c ≤ 'f')

/-- Split a character list at every occurrence of the letter e (helper for
the exponent shape of numeric literals). -/
def partirEnE : List Char → List Char → List (List Char)
  | [], acc => [acc.reverse]
  | c :: rest, acc =>
      if c == 'e' then acc.reverse :: partirEnE rest []
      else partirEnE rest (c :: acc)

/-- Model of JavaScript `isNaN(token)` being false on a token made of
lowercase word characters: the decimal, decimal-with-exponent,
hexadecimal, binary and octal literal shapes that `Number()` accepts
(signs and decimal points cannot occur inside a word-character token). -/
def esTokenNumerico (s : String) : Bool :=
  (!s.toList.isEmpty && s.toList.all Char.isDigit)
  || (match s.toList with
      | '0' :: 'x' :: rest => !rest.isEmpty && rest.all esHexCh
      | '0' :: 'b' :: rest => !rest.isEmpty && rest.all (fun c => c == '0' || c == '1')
      | '0' :: 'o' :: rest => !rest.isEmpty && rest.all (fun c => '0' ≤ c && c ≤ '7')
      | _ => false)
  || (match partirEnE s.toList [] with
      | [m, ex] => !m.isEmpty && !ex.isEmpty && m.all Char.isDigit && ex.all Char.isDigit
      | _ => false)

/-- The stop-word list palabrasComunes of extraerPalabrasClave. -/
def palabrasComunes : List String :=
  ["el", "la", "de", "que", "y", "a", "en", "un", "es", "se", "no", "te", "lo", "le",
   "da", "su", "por", "son", "con", "para", "al", "del", "está", "muy", "me", "pero",
   "todo", "mi", "fue", "era"]

/-- Append the pending (reversed) token, if nonempty, to the token list. -/
def agregaToken (acc : List Char) (toks : List String) : List String :=
  match acc with
  | [] => toks
  | _ => toks ++ [String.mk acc.reverse]

/-- Whitespace splitting: the maximal non-whitespace runs, in order.  (The
JavaScript split also yields empty tokens at the borders; those are
dropped by the subsequent length filter, so the model drops them here.) -/
def partirAux : List Char → List Char → List String → List String
  | [], acc, toks => agregaToken acc toks
  | c :: rest, acc, toks =>
      if c.isWhitespace then partirAux rest [] (agregaToken acc toks)
      else partirAux rest (c :: acc) toks

def partirEspacios (s : String) : List String := partirAux s.toList [] []

/-- Tokenization of extraerPalabrasClave: lowercase, replace every
character that is neither a word character nor whitespace by a space,
split on whitespace, and keep tokens longer than 3 characters that are
neither stop words nor numeric. -/
def tokenizar (descripcion : String) : List String :=
  let limpio := String.mk ((sqlLower descripcion).toList.map
    (fun c => if jsWordChar c || c.isWhitespace then c else ' '))
  (partirEspacios limpio).filter
    (fun palabra => decide (palabra.length > 3)
      && !(palabrasComunes.contains palabra)
      && !(esTokenNumerico palabra))

/-- One step of the frequency count: increment the existing entry or
append a new one (the JavaScript plain object keeps string keys in
insertion order; every surviving token is a non-integer key, integer-like
tokens having been dropped by the numeric filter). -/
def bump : List (String × Nat) → String → List (String × Nat)
  | [], palabra => [(palabra, 1)]
  | (q, c) :: rest, palabra =>
      if q == palabra then (q, c + 1) :: rest else (q, c) :: bump rest palabra

/-- The frequency list, in first-occurrence order. -/
def frecuencia (palabras : List String) : List (String × Nat) :=
  palabras.foldl bump []

/-- Insertion step of the sort model: place `a` before the first element
`b` with `p a b`. -/
def insertar (p : α → α → Bool) (a : α) : List α → List α
  | [] => [a]
  | b :: l => if p a b then a :: b :: l else b :: insertar p a l

/-- Insertion sort; with a non-strict comparison this is a stable sort,
the model of the (guaranteed stable) JavaScript Array sort. -/
def ordenar (p : α → α → Bool) : List α → List α
  | [] => []
  | a :: l => insertar p a (ordenar p l)

/-- The descending-by-count comparison of the sort callback in the source. -/
def cmpFrecuencia (a b : String × Nat) : Bool := decide (b.2 ≤ a.2)

/-- AnalizadorQuejas.extraerPalabrasClave: tokenize, count, sort by
frequency descending (stable), take the 5 most frequent tokens. -/
def extraerPalabrasClave (descripcion : String) : List String :=
  ((ordenar cmpFrecuencia (frecuencia (tokenizar descripcion))).take 5).map Prod.fst

/-- Specification-side strict order for claim C9: higher count first, ties
broken by smaller first-occurrence index. -/
def cmpLex (a b : Nat × String × Nat) : Bool :=
  decide (b.2.2 < a.2.2) || (decide (a.2.2 = b.2.2) && decide (a.1 < b.1))

/-- Specification-side extraction for claim C9: sort the
first-occurrence-indexed frequency entries by (count descending, index
ascending) and take the 5 first tokens. -/
def extraccionSpec (descripcion : String) : List String :=
  ((ordenar cmpLex ((frecuencia (tokenizar descripcion)).enum)).take 5).map
    (fun t => t.2.1)

theorem mem_insertar (p : α → α → Bool) (a x : α) (l : List α) :
    x ∈ insertar p a l ↔ x = a ∨ x ∈ l := by
  induction l with
  | nil => simp [insertar]
  | cons b l ih =>
      unfold insertar
      by_cases hp : p a b
      · simp [hp]
      · simp [hp, ih]
        tauto

theorem mem_ordenar (p : α → α → Bool) (x : α) (l : List α) :
    x ∈ ordenar p l ↔ x ∈ l := by
  induction l with
  | nil => simp [ordenar]
  | cons a l ih => simp [ordenar, mem_insertar, ih]

theorem fst_ge_enumFrom (l : List α) (n : Nat) (x : Nat × α)
    (h : x ∈ List.enumFrom n l) : n ≤ x.1 := by
  induction l generalizing n with
  | nil => simp [List.enumFrom] at h
  | cons a l ih =>
      simp only [List.enumFrom, List.mem_cons] at h
      rcases h with h | h
      · simp [h]
      · exact Nat.le_trans (Nat.le_succ n) (ih (n + 1) h)

theorem insertar_lex_map (n : Nat) (x : String × Nat) (L : List (Nat × String × Nat))
    (h : ∀ m ∈ L, n < m.1) :
    (insertar cmpLex (n, x) L).map (fun t => t.2)
      = insertar cmpFrecuencia x (L.map (fun t => t.2)) := by
  induction L with
  | nil => rfl
  | cons m L ih =>
      obtain ⟨i, y⟩ := m
      have hi : n < i := h ⟨i, y⟩ (List.mem_cons_self _ _)
      have hcmp : cmpLex (n, x) (i, y) = cmpFrecuencia x y := by
        unfold cmpLex cmpFrecuencia
        by_cases h1 : y.2 < x.2 <;> by_cases h2 : x.2 = y.2 <;>
          simp [h1, h2, hi] <;> omega
      unfold insertar
      rw [hcmp]
      by_cases hc : cmpFrecuencia x y
      · simp [hc]
      · simp only [hc, if_false, Bool.false_eq_true, List.map_cons]
        rw [ih (fun m hm => h m (List.mem_cons_of_mem _ hm))]

theorem ordenar_lex_map (l : List (String × Nat)) (n : Nat) :
    (ordenar cmpLex (List.enumFrom n l)).map (fun t => t.2)
      = ordenar cmpFrecuencia l := by
  induction l generalizing n with
  | nil => rfl
  | cons x l ih =>
      simp only [List.enumFrom, ordenar]
      rw [insertar_lex_map]
      · rw [ih]
      · intro m hm
        have hmem : m ∈ List.enumFrom (n + 1) l := (mem_ordenar _ _ _).mp hm
        have := fst_ge_enumFrom l (n + 1) m hmem
        omega

/-- Claim C9: the keyword extractor orders the surviving tokens by
frequency descending with ties broken by first-occurrence order (its
stable descending sort of the insertion-ordered frequency entries equals
the sort by the strict order (count descending, first-occurrence index
ascending)); in particular the first 2 keywords of
"el pollo pollo estaba horrible horrible horrible" are
["horrible", "pollo"]. -/
theorem c9_extractor_orden :
    (∀ descripcion, extraerPalabrasClave descripcion = extraccionSpec descripcion)
      ∧ (extraerPalabrasClave "el pollo pollo estaba horrible horrible horrible").take 2
        = ["horrible", "pollo"] := by
  constructor
  · intro d
    unfold extraerPalabrasClave extraccionSpec
    have h := ordenar_lex_map (frecuencia (tokenizar d)) 0
    rw [show (frecuencia (tokenizar d)).enum
        = List.enumFrom 0 (frecuencia (tokenizar d)) from rfl]
    rw [← h, ← List.map_take, List.map_map]
    rfl
  · rfl

/-! ## Normalizer (AnalizadorQuejas.normalizarDatos and helpers) -/

/-- A raw timestamp field value.  JavaScript date parsing is an external
operation; its outcome is encoded in the constructor: a Date object with
epoch value `t`, a truthy value that `new Date(...)` parses to `t`, or a
truthy string that parses to an invalid date. -/
inductive DateInput where
  | dateObj (t : Int)
  | parseable (s : String) (t : Int)
  | invalida (s : String)
deriving DecidableEq

/-- Truthiness of a raw timestamp value (Date objects are always truthy). -/
def fechaTruthy : DateInput → Bool
  | .dateObj _ => true
  | .parseable s _ => s != ""
  | .invalida s => s != ""

/-- A raw webhook submission: the alias keys read by normalizarDatos
(`nombre`/`Nombre`, `telefono`/`Telefono`,
`descripcion`/`Descripción`/`descripción`, `sucursal`/`Sucursal`,
`fecha_creacion`/`Created on`); `none` is an absent key. -/
structure Raw where
  nombre : Option JSVal := none
  nombreCap : Option JSVal := none
  telefono : Option JSVal := none
  telefonoCap : Option JSVal := none
  descripcion : Option JSVal := none
  descripcionCapAcc : Option JSVal := none
  descripcionAcc : Option JSVal := none
  sucursal : Option JSVal := none
  sucursalCap : Option JSVal := none
  fecha_creacion : Option DateInput := none
  createdOn : Option DateInput := none
deriving DecidableEq

/-- JavaScript `trim()`: drop leading and trailing whitespace. -/
def recortar (s : String) : String :=
  String.mk (((s.toList.dropWhile Char.isWhitespace).reverse.dropWhile
    Char.isWhitespace).reverse)

/-- JavaScript `substring(0, n)`. -/
def subcadena (s : String) (n : Nat) : String := String.mk (s.toList.take n)

/-- AnalizadorQuejas.limpiarTexto: null for falsy input, otherwise
`toString().trim().substring(0, 1000)`. -/
def limpiarTexto (texto : Option JSVal) : Option String :=
  match texto with
  | none => none
  | some v => if jsTruthy v then some (subcadena (recortar (jsToString v)) 1000) else none

/-- AnalizadorQuejas.limpiarTelefono.  The guard is
not-telefono, or telefono strictly equal to the edna placeholder, or
`telefono.includes` of "url": evaluated
left to right, so a truthy non-string value reaches `.includes`, which is
not a function on numbers — a TypeError, modelled as an error result.
Otherwise: keep only digits; accept exactly 10 digits, or 12 digits
starting with 52 (strip the prefix); anything else yields null. -/
def limpiarTelefono (telefono : Option JSVal) : Except String (Option String) :=
  match telefono with
  | none => .ok none
  | some v =>
      if !jsTruthy v then .ok none
      else
        match v with
        | .vnum _ => .error "TypeError: telefono.includes is not a function"
        | .vstr s =>
            if s = "edna" then .ok none
            else if containsSub s "url" then .ok none
            else
              let soloNumeros := String.mk (s.toList.filter Char.isDigit)
              if soloNumeros.length = 10 then .ok (some soloNumeros)
              else if soloNumeros.length = 12 && prefijoDe ['5', '2'] soloNumeros.toList then
                .ok (some (String.mk (soloNumeros.toList.drop 2)))
              else .ok none

/-- AnalizadorQuejas.parsearFecha: a Date instance passes through; a
parseable value yields its date; an invalid one yields the current time. -/
def parsearFecha (fecha : DateInput) (ahora : Int) : Int :=
  match fecha with
  | .dateObj t => t
  | .parseable _ t => t
  | .invalida _ => ahora

/-- The resolved description input of normalizarDatos:
`datos.descripcion || datos.Descripción || datos.descripción ||
"Sin descripción"`. -/
def descripcionResuelta (datos : Raw) : JSVal :=
  (jsOr (jsOr (jsOr datos.descripcion datos.descripcionCapAcc) datos.descripcionAcc)
    (some (.vstr "Sin descripción"))).getD (.vstr "Sin descripción")

/-- The resolved timestamp input:
`datos.fecha_creacion`, else the Created on field, else `new Date()`. -/
def fechaResuelta (datos : Raw) (ahora : Int) : DateInput :=
  match datos.fecha_creacion with
  | some f => if fechaTruthy f then f else
      (match datos.createdOn with
       | some g => if fechaTruthy g then g else .dateObj ahora
       | none => .dateObj ahora)
  | none =>
      match datos.createdOn with
      | some g => if fechaTruthy g then g else .dateObj ahora
      | none => .dateObj ahora

/-- The normalized record built by normalizarDatos. -/
structure Normalizado where
  nombre : Option String
  telefono : Option String
  descripcion : Option String
  sucursal : Option String
  fecha_creacion : Int
deriving DecidableEq

/-- AnalizadorQuejas.normalizarDatos.  The phone cleaning may raise (see
limpiarTelefono); every other field is produced by total fallbacks. -/
def normalizarDatos (datos : Raw) (ahora : Int) : Except String Normalizado :=
  match limpiarTelefono (jsOr datos.telefono datos.telefonoCap) with
  | .error e => .error e
  | .ok telefono =>
      .ok
        { nombre := limpiarTexto (jsOr datos.nombre datos.nombreCap)
          telefono := telefono
          descripcion := limpiarTexto (some (descripcionResuelta datos))
          sucursal := limpiarTexto (jsOr datos.sucursal datos.sucursalCap)
          fecha_creacion := parsearFecha (fechaResuelta datos ahora) ahora }

/-- A submission whose description is a single space. -/
def rawEspacio : Raw := { descripcion := some (.vstr " ") }

/-- Claim C5, counterexample: a whitespace-only description is truthy, so
the Sin descripción fallback is not taken; trimming then yields the empty
string.  The normalized text is empty, refuting the claimed non-emptiness
invariant. -/
theorem c5_contraejemplo :
    (normalizarDatos rawEspacio 0).map (fun d => d.descripcion)
      = .ok (some "") := by
  rfl

/-- Claim C5, amended: the normalized text is never null (the sentinel is
always a present string), and it is empty exactly when the resolved
description input — the first truthy alias value, or the Sin descripción
sentinel when none is truthy — trims to the empty string, which happens
only for a truthy whitespace-only description.  In every other case,
including absent and empty descriptions, the text is non-empty. -/
theorem jsTruthy_or_default (a : Option JSVal) (b : JSVal) (hb : jsTruthy b = true) :
    jsTruthy ((jsOr a (some b)).getD b) = true := by
  unfold jsOr
  cases a with
  | none => simpa using hb
  | some v =>
      by_cases hv : jsTruthy v
      · simp [hv]
      · simpa [hv] using hb

theorem c5_texto_enmendado (datos : Raw) (ahora : Int) (d : Normalizado)
    (h : normalizarDatos datos ahora = .ok d) :
    (∃ s, d.descripcion = some s)
      ∧ (d.descripcion = some ""
          ↔ recortar (jsToString (descripcionResuelta datos)) = "") := by
  have hdesc : d.descripcion
      = some (subcadena (recortar (jsToString (descripcionResuelta datos))) 1000) := by
    unfold normalizarDatos at h
    cases hp : limpiarTelefono (jsOr datos.telefono datos.telefonoCap) with
    | error e => rw [hp] at h; exact Except.noConfusion h
    | ok t =>
        rw [hp] at h
        cases h
        unfold limpiarTexto
        have htr : jsTruthy (descripcionResuelta datos) = true := by
          unfold descripcionResuelta
          exact jsTruthy_or_default _ _ rfl
        simp [htr]
  refine ⟨⟨_, hdesc⟩, ?_⟩
  rw [hdesc, Option.some.injEq]
  unfold subcadena
  constructor
  · intro he
    have h2 : (recortar (jsToString (descripcionResuelta datos))).toList.take 1000 = [] :=
      congrArg String.data he
    cases hr : (recortar (jsToString (descripcionResuelta datos))).toList with
    | nil => exact congrArg String.mk hr
    | cons c cs =>
        rw [hr] at h2
        simp at h2
  · intro he
    rw [he]
    rfl

/-- Claim C5, witness for the amended statement: a one-word description
normalizes successfully and its text is the non-empty word. -/
theorem c5_testigo :
    normalizarDatos { descripcion := some (.vstr "hola") } 0
        = .ok ⟨none, none, some "hola", none, 0⟩
      ∧ ((∃ s, (⟨none, none, some "hola", none, 0⟩ : Normalizado).descripcion = some s)
          ∧ ((⟨none, none, some "hola", none, 0⟩ : Normalizado).descripcion = some ""
              ↔ recortar (jsToString (descripcionResuelta
                  { descripcion := some (.vstr "hola") })) = "")) :=
  ⟨rfl, c5_texto_enmendado { descripcion := some (.vstr "hola") } 0 _ rfl⟩

/-- A submission whose phone field is the number 5512345678 (a JSON
number, not a string). -/
def rawTelefonoNumero : Raw := { telefono := some (.vnum 5512345678) }

/-- Claim C7: normalize is not total.  A numeric phone value is truthy and
not the edna placeholder, so the guard reaches `telefono.includes` of "url"
— numbers have no `includes` method — and normalizarDatos raises a
TypeError instead of yielding the no-phone fallback. -/
theorem c7_telefono_typeerror :
    normalizarDatos rawTelefonoNumero 0
      = .error "TypeError: telefono.includes is not a function" := by
  rfl

/-! ## Branch resolver (SQL function buscar_sucursales_inteligente) -/

/-- A joined row of sucursales, municipios and estados as seen by the
branch search (external_key is a nullable column). -/
structure Sucursal where
  id : Nat
  nombre : String
  municipio : String
  estado_nombre : String
  estado_codigo : String
  external_key : Option Int
  activa : Bool
deriving DecidableEq

/-- One result row of buscar_sucursales_inteligente. -/
structure CandidatoSucursal where
  sucursal_id : Nat
  nombre : String
  municipio : String
  estado : String
  confianza : Rat
  razon : String
deriving DecidableEq

/-- `s.external_key::TEXT = busqueda`: NULL compares as not-equal. -/
def coincideExternalKey (s : Sucursal) (busqueda : String) : Bool :=
  match s.external_key with
  | some k => toString k == busqueda
  | none => false

/-- The WHERE clause of buscar_sucursales_inteligente: active branches
whose external key equals the search text, or whose name or municipality
contains it (case-insensitive), or whose state code equals it. -/
def precalificaSucursal (s : Sucursal) (busqueda : String) : Bool :=
  s.activa
    && (coincideExternalKey s busqueda
      || containsSub (sqlLower s.nombre) (sqlLower busqueda)
      || containsSub (sqlLower s.municipio) (sqlLower busqueda)
      || (sqlLower s.estado_codigo == sqlLower busqueda))

/-- The CASE expressions of buscar_sucursales_inteligente: the tiered
confidence and reason, with the 0.30 Coincidencia baja fallback. -/
def puntuaSucursal (s : Sucursal) (busqueda : String) : CandidatoSucursal :=
  let confianza : Rat :=
    if coincideExternalKey s busqueda then 1
    else if sqlLower s.nombre == sqlLower busqueda then 19 / 20
    else if sqlLower s.municipio == sqlLower busqueda then 17 / 20
    else if containsSub (sqlLower s.nombre) (sqlLower busqueda) then 3 / 4
    else if containsSub (sqlLower s.municipio) (sqlLower busqueda) then 13 / 20
    else if sqlLower s.estado_codigo == sqlLower busqueda then 3 / 5
    else 3 / 10
  let razon : String :=
    if coincideExternalKey s busqueda then "ID exacto"
    else if sqlLower s.nombre == sqlLower busqueda then "Nombre exacto"
    else if sqlLower s.municipio == sqlLower busqueda then "Ciudad exacta"
    else if containsSub (sqlLower s.nombre) (sqlLower busqueda) then "Nombre parcial"
    else if containsSub (sqlLower s.municipio) (sqlLower busqueda) then "Ciudad parcial"
    else if sqlLower s.estado_codigo == sqlLower busqueda then "Estado"
    else "Coincidencia baja"
  ⟨s.id, s.nombre, s.municipio, s.estado_nombre, confianza, razon⟩

/-- Lexicographic character comparison, for the ORDER BY tie-break on the
branch name. -/
def menorOIgualCh : List Char → List Char → Bool
  | [], _ => true
  | _ :: _, [] => false
  | a :: as, b :: bs =>
      if a.val < b.val then true
      else if a.val = b.val then menorOIgualCh as bs
      else false

/-- ORDER BY confianza DESC, s.nombre: higher confidence first, ties by
name ascending. -/
def cmpCandidato (a b : CandidatoSucursal) : Bool :=
  if b.confianza < a.confianza then true
  else if a.confianza = b.confianza then menorOIgualCh a.nombre.toList b.nombre.toList
  else false

/-- The SQL function buscar_sucursales_inteligente: filter by the WHERE
clause, score each row, order by confidence descending (name ascending on
ties) and truncate to the limit. -/
def buscar_sucursales_inteligente (sucursales : List Sucursal) (busqueda : String)
    (limite : Nat) : List CandidatoSucursal :=
  ((ordenar cmpCandidato
      ((sucursales.filter (fun s => precalificaSucursal s busqueda)).map
        (fun s => puntuaSucursal s busqueda))).take limite)

/-- Claim C6: every candidate returned by the branch resolver has a
confidence among 1.00, 0.95, 0.85, 0.75, 0.65 and 0.60, and its reason is
never the Coincidencia baja fallback: every branch passing the WHERE-style
prequalification already satisfies one of the six tier predicates, so the
0.30 tier is unreachable. -/
theorem c6_confianza_sin_fallback (sucursales : List Sucursal) (busqueda : String)
    (limite : Nat) (c : CandidatoSucursal)
    (h : c ∈ buscar_sucursales_inteligente sucursales busqueda limite) :
    (c.confianza = 1 ∨ c.confianza = 19 / 20 ∨ c.confianza = 17 / 20
        ∨ c.confianza = 3 / 4 ∨ c.confianza = 13 / 20 ∨ c.confianza = 3 / 5)
      ∧ c.razon ≠ "Coincidencia baja" := by
  unfold buscar_sucursales_inteligente at h
  have h1 := List.mem_of_mem_take h
  have h2 := (mem_ordenar _ _ _).mp h1
  obtain ⟨s, hs, rfl⟩ := List.mem_map.mp h2
  have hpre := List.of_mem_filter hs
  unfold precalificaSucursal at hpre
  have hdisj : coincideExternalKey s busqueda = true
      ∨ containsSub (sqlLower s.nombre) (sqlLower busqueda) = true
      ∨ containsSub (sqlLower s.municipio) (sqlLower busqueda) = true
      ∨ (sqlLower s.estado_codigo == sqlLower busqueda) = true := by
    simp only [Bool.and_eq_true, Bool.or_eq_true] at hpre
    tauto
  unfold puntuaSucursal
  by_cases hek : coincideExternalKey s busqueda = true
  · simp [hek]
  · by_cases hne : (sqlLower s.nombre == sqlLower busqueda) = true
    · simp [hek, hne]
    · by_cases hme : (sqlLower s.municipio == sqlLower busqueda) = true
      · simp [hek, hne, hme]
      · by_cases hnp : containsSub (sqlLower s.nombre) (sqlLower busqueda) = true
        · simp [hek, hne, hme, hnp]
        · by_cases hmp : containsSub (sqlLower s.municipio) (sqlLower busqueda) = true
          · simp [hek, hne, hme, hnp, hmp]
          · by_cases hcd : (sqlLower s.estado_codigo == sqlLower busqueda) = true
            · simp [hek, hne, hme, hnp, hmp, hcd]
            · exact absurd hdisj (by simp [hek, hnp, hmp, hcd])

/-- A seed-style branch used to witness claim C6. -/
def sucursalTestigo : Sucursal :=
  ⟨1, "monterrey", "Monterrey", "Nuevo León", "NL", some 1, true⟩

/-- Claim C6, witness: searching "monterrey" over a one-branch catalog
returns the scored candidate of that branch, and the conclusion of the theorem
holds for it. -/
theorem c6_testigo :
    puntuaSucursal sucursalTestigo "monterrey"
        ∈ buscar_sucursales_inteligente [sucursalTestigo] "monterrey" 3
      ∧ (((puntuaSucursal sucursalTestigo "monterrey").confianza = 1
          ∨ (puntuaSucursal sucursalTestigo "monterrey").confianza = 19 / 20
          ∨ (puntuaSucursal sucursalTestigo "monterrey").confianza = 17 / 20
          ∨ (puntuaSucursal sucursalTestigo "monterrey").confianza = 3 / 4
          ∨ (puntuaSucursal sucursalTestigo "monterrey").confianza = 13 / 20
          ∨ (puntuaSucursal sucursalTestigo "monterrey").confianza = 3 / 5)
        ∧ (puntuaSucursal sucursalTestigo "monterrey").razon ≠ "Coincidencia baja") := by
  have hm : puntuaSucursal sucursalTestigo "monterrey"
      ∈ buscar_sucursales_inteligente [sucursalTestigo] "monterrey" 3 := by
    rw [show buscar_sucursales_inteligente [sucursalTestigo] "monterrey" 3
        = [puntuaSucursal sucursalTestigo "monterrey"] from rfl]
    exact List.mem_singleton.mpr rfl
  exact ⟨hm, c6_confianza_sin_fallback [sucursalTestigo] "monterrey" 3 _ hm⟩

/-! ## Pipeline state and collaborators (procesarQuejaConIA and the basic
webhook).  The database is modelled as explicit state; each query site
consults a failure oracle (the persistence collaborator may fail at any
query).  The transaction of procesarQuejaConIA is modelled by running the
body on a working copy: the catch issues ROLLBACK, so an error leaves the
original state; COMMIT publishes the working state. -/

structure Cliente where
  id : Nat
  nombre : Option String
  telefono : Option String
  segmento_cliente : Option String
  total_quejas : Nat
deriving DecidableEq

/-- The result object of AnalizadorQuejas.buscarSucursalInteligente. -/
structure Busqueda where
  sucursal_id : Option Nat
  sucursal_nombre : String
  confianza : Rat
  candidatas : List Nat
deriving DecidableEq

/-- The analisis_ia JSON blob attached to an inserted complaint. -/
structure AnalisisIA where
  procesado_en : Int
  sentimiento : Sentimiento
  categoria : Categorizacion
  mapeo_sucursal : Busqueda
  urgencia_calculada : Nat
  palabras_clave_extraidas : List String
deriving DecidableEq

/-- A row of the quejas table (fields the two servers insert; the basic
webhook leaves the analysis columns NULL). -/
structure Queja where
  id : Nat
  cliente_id : Nat
  sucursal_id : Option Nat
  descripcion : Option String
  fecha_creacion : Int
  ubicacion_original : Option String
  categoria_id : Option Nat
  subcategoria_id : Option Nat
  sentimiento : String
  score_sentimiento : Rat
  urgencia : Nat
  palabras_clave : Option (List String)
  confianza_mapeo : Option Rat
  sucursales_candidatas : Option (List Nat)
  canal_origen : String
  datos_originales : Raw
  analisis_ia : Option AnalisisIA
deriving DecidableEq

/-- A row of the insights_ia table (the columns the pipeline fills). -/
structure Insight where
  tipo_insight : String
  titulo : String
  descripcion : String
  impacto_estimado : String
  probabilidad : Rat
  acciones_sugeridas : List String
deriving DecidableEq

/-- The persistence state touched by a submission. -/
structure DB where
  clientes : List Cliente
  quejas : List Queja
  insights : List Insight
deriving DecidableEq

/-- Failure oracle for the persistence collaborator: one flag per query
site.  A true flag makes that query throw. -/
structure FailSpec where
  failBegin : Bool := false
  failSentiment : Bool := false
  failBuscar : Bool := false
  failClienteSelect : Bool := false
  failClienteInsert : Bool := false
  failQuejaInsert : Bool := false
  failStats : Bool := false
  failInsight : Bool := false
  failCommit : Bool := false
deriving DecidableEq

/-- AnalizadorQuejas.buscarSucursalInteligente: a falsy location hint skips
the query entirely; an empty result set yields the No encontrada outcome;
otherwise the first row is the best candidate and all row ids are the
candidate list. -/
def buscarSucursalInteligenteM (catalogo : List Sucursal) (f : FailSpec)
    (ubicacion : Option String) : Except String Busqueda :=
  match ubicacion with
  | none => .ok ⟨none, "Sin especificar", 0, []⟩
  | some u =>
      if u = "" then .ok ⟨none, "Sin especificar", 0, []⟩
      else if f.failBuscar then .error "consulta buscar_sucursales_inteligente"
      else
        match buscar_sucursales_inteligente catalogo u 3 with
        | [] => .ok ⟨none, "No encontrada", 0, []⟩
        | mejor :: resto =>
            .ok ⟨some mejor.sucursal_id, mejor.nombre, mejor.confianza,
              (mejor :: resto).map (fun r => r.sucursal_id)⟩

/-- The INSERT branch of obtenerOCrearCliente: segment nuevo with a phone,
anonimo without. -/
def crearCliente (f : FailSpec) (t : DB) (nombre telefono : Option String) :
    Except String (Nat × DB) :=
  if f.failClienteInsert then .error "INSERT INTO clientes"
  else
    let nuevoId := t.clientes.length + 1
    let segmento := if telefono.isSome then "nuevo" else "anonimo"
    .ok (nuevoId,
      { t with clientes := t.clientes ++ [⟨nuevoId, nombre, telefono, some segmento, 0⟩] })

/-- AnalizadorQuejas.obtenerOCrearCliente: with a phone, look up an
existing customer by exact phone match, else create one. -/
def obtenerOCrearCliente (f : FailSpec) (t : DB) (nombre telefono : Option String) :
    Except String (Nat × DB) :=
  match telefono with
  | some tel =>
      if f.failClienteSelect then .error "SELECT id FROM clientes"
      else
        match t.clientes.find? (fun c => c.telefono == some tel) with
        | some c => .ok (c.id, t)
        | none => crearCliente f t nombre (some tel)
  | none => crearCliente f t nombre none

/-- AnalizadorQuejas.actualizarEstadisticasCliente: set total_quejas of the
customer to the count of their complaints. -/
def actualizarEstadisticasCliente (f : FailSpec) (t : DB) (clienteId : Nat) :
    Except String DB :=
  if f.failStats then .error "UPDATE clientes"
  else .ok { t with clientes := t.clientes.map (fun c =>
      if c.id == clienteId then
        { c with total_quejas := (t.quejas.filter (fun q => q.cliente_id == clienteId)).length }
      else c) }

/-- AnalizadorQuejas.generarInsightsSiEsNecesario: an insight row for
complaints of urgency at least 4, nothing otherwise. -/
def generarInsightsSiEsNecesario (f : FailSpec) (t : DB) (categoria : Categorizacion)
    (urgencia : Nat) : Except String DB :=
  if urgencia ≥ 4 then
    if f.failInsight then .error "INSERT INTO insights_ia"
    else .ok { t with insights := t.insights ++
      [⟨"queja_critica",
        "Queja crítica: " ++ categoria.categoria_nombre,
        "Se detectó una queja de alta urgencia (" ++ toString urgencia
          ++ "/5) en categoría " ++ categoria.categoria_nombre,
        "alto", 9 / 10,
        ["Contactar al cliente inmediatamente", "Investigar el incidente",
          "Implementar acciones correctivas"]⟩] }
  else .ok t

/-- The success payload returned by procesarQuejaConIA. -/
structure Resultado where
  success : Bool
  queja_id : Nat
  sentimiento : String
  categoria : String
  urgencia : Nat
  sucursal : String
  confianza_mapeo : Rat
deriving DecidableEq

/-- The body of procesarQuejaConIA between BEGIN and COMMIT, on the
working state: normalize, analyse, resolve the customer, insert the
complaint, refresh the customer stats, emit the insight. -/
def runPipeline (cache : List Categoria) (catalogo : List Sucursal) (raw : Raw)
    (ahora : Int) (db : DB) (f : FailSpec) : Except String (Resultado × DB) :=
  match normalizarDatos raw ahora with
  | .error e => .error e
  | .ok datos =>
    if f.failSentiment then .error "consulta analizar_sentimiento_basico"
    else
      let texto := datos.descripcion.getD ""
      let sentimientoAnalisis := analizar_sentimiento_basico texto
      let categorizacion := categorizarQueja cache texto
      match buscarSucursalInteligenteM catalogo f datos.sucursal with
      | .error e => .error e
      | .ok busquedaSucursal =>
        let urgencia := calcularUrgencia sentimientoAnalisis categorizacion
        let palabrasClave := extraerPalabrasClave texto
        match obtenerOCrearCliente f db datos.nombre datos.telefono with
        | .error e => .error e
        | .ok (clienteId, t1) =>
          if f.failQuejaInsert then .error "INSERT INTO quejas"
          else
            let quejaId := t1.quejas.length + 1
            let t2 := { t1 with quejas := t1.quejas ++
              [⟨quejaId, clienteId, busquedaSucursal.sucursal_id, datos.descripcion,
                datos.fecha_creacion, datos.sucursal, some categorizacion.categoria_id,
                categorizacion.subcategoria_id, sentimientoAnalisis.sentimiento,
                sentimientoAnalisis.score, urgencia, some palabrasClave,
                some busquedaSucursal.confianza, some busquedaSucursal.candidatas,
                "google_sheets", raw,
                some ⟨ahora, sentimientoAnalisis, categorizacion, busquedaSucursal,
                  urgencia, palabrasClave⟩⟩] }
            match actualizarEstadisticasCliente f t2 clienteId with
            | .error e => .error e
            | .ok t3 =>
              match generarInsightsSiEsNecesario f t3 categorizacion urgencia with
              | .error e => .error e
              | .ok t4 =>
                .ok (⟨true, quejaId, sentimientoAnalisis.sentimiento,
                  categorizacion.categoria_nombre, urgencia,
                  busquedaSucursal.sucursal_nombre, busquedaSucursal.confianza⟩, t4)

/-- AnalizadorQuejas.procesarQuejaConIA: BEGIN, run the body, COMMIT; any
throw is caught, ROLLBACK restores the original state and the error is
rethrown.  A failing COMMIT also leaves the original state. -/
def procesarQuejaConIA (cache : List Categoria) (catalogo : List Sucursal) (raw : Raw)
    (ahora : Int) (db : DB) (f : FailSpec) : Except String Resultado × DB :=
  if f.failBegin then (.error "BEGIN", db)
  else
    match runPipeline cache catalogo raw ahora db f with
    | .error e => (.error e, db)
    | .ok (r, t) => if f.failCommit then (.error "COMMIT", db) else (.ok r, t)

/-- The webhook response mapping of both servers: a thrown error becomes a
status-500 success-false payload, a result a status-200 success-true one. -/
def respuestaWebhook : Except String Resultado → Nat × Bool
  | .ok _ => (200, true)
  | .error _ => (500, false)

theorem quejas_crearCliente {f : FailSpec} {t : DB} {nombre telefono : Option String}
    {cid : Nat} {t' : DB} (h : crearCliente f t nombre telefono = .ok (cid, t')) :
    t'.quejas = t.quejas := by
  unfold crearCliente at h
  by_cases hf : f.failClienteInsert = true
  · rw [if_pos hf] at h
    exact Except.noConfusion h
  · rw [if_neg hf] at h
    simp only [Except.ok.injEq, Prod.mk.injEq] at h
    obtain ⟨-, h2⟩ := h
    subst h2
    rfl

theorem quejas_obtenerOCrear {f : FailSpec} {t : DB} {nombre telefono : Option String}
    {cid : Nat} {t' : DB} (h : obtenerOCrearCliente f t nombre telefono = .ok (cid, t')) :
    t'.quejas = t.quejas := by
  unfold obtenerOCrearCliente at h
  cases telefono with
  | none => exact quejas_crearCliente h
  | some tel =>
      cases hfb : f.failClienteSelect with
      | true => simp [hfb] at h
      | false =>
          simp only [hfb, Bool.false_eq_true, if_false] at h
          cases hfind : t.clientes.find? (fun c => c.telefono == some tel) with
          | some c =>
              simp only [hfind, Except.ok.injEq, Prod.mk.injEq] at h
              obtain ⟨-, h2⟩ := h
              subst h2
              rfl
          | none =>
              simp only [hfind] at h
              exact quejas_crearCliente h

theorem quejas_actualizarEstadisticas {f : FailSpec} {t : DB} {cid : Nat} {t' : DB}
    (h : actualizarEstadisticasCliente f t cid = .ok t') : t'.quejas = t.quejas := by
  unfold actualizarEstadisticasCliente at h
  by_cases hf : f.failStats = true
  · rw [if_pos hf] at h
    exact Except.noConfusion h
  · rw [if_neg hf] at h
    simp only [Except.ok.injEq] at h
    subst h
    rfl

theorem quejas_generarInsights {f : FailSpec} {t : DB} {categoria : Categorizacion}
    {urgencia : Nat} {t' : DB}
    (h : generarInsightsSiEsNecesario f t categoria urgencia = .ok t') :
    t'.quejas = t.quejas := by
  unfold generarInsightsSiEsNecesario at h
  by_cases hu : urgencia ≥ 4
  · rw [if_pos hu] at h
    by_cases hf : f.failInsight = true
    · rw [if_pos hf] at h
      exact Except.noConfusion h
    · rw [if_neg hf] at h
      simp only [Except.ok.injEq] at h
      subst h
      rfl
  · rw [if_neg hu] at h
    simp only [Except.ok.injEq] at h
    subst h
    rfl

theorem runPipeline_ok {cache : List Categoria} {catalogo : List Sucursal} {raw : Raw}
    {ahora : Int} {db : DB} {f : FailSpec} {r : Resultado} {t : DB}
    (h : runPipeline cache catalogo raw ahora db f = .ok (r, t)) :
    r.success = true ∧ r.queja_id = db.quejas.length + 1
      ∧ t.quejas.length = db.quejas.length + 1 := by
  unfold runPipeline at h
  cases hn : normalizarDatos raw ahora with
  | error e => simp [hn] at h
  | ok datos =>
      rw [hn] at h
      by_cases hs : f.failSentiment = true
      · simp [hs] at h
      · simp only [hs, Bool.false_eq_true, if_false] at h
        cases hb : buscarSucursalInteligenteM catalogo f datos.sucursal with
        | error e => simp [hb] at h
        | ok busquedaSucursal =>
            rw [hb] at h
            cases hc : obtenerOCrearCliente f db datos.nombre datos.telefono with
            | error e => simp [hc] at h
            | ok pareja =>
                obtain ⟨clienteId, t1⟩ := pareja
                rw [hc] at h
                by_cases hq : f.failQuejaInsert = true
                · simp [hq] at h
                · simp only [hq, Bool.false_eq_true, if_false] at h
                  cases hst : actualizarEstadisticasCliente f
                      { t1 with quejas := t1.quejas ++
                        [⟨t1.quejas.length + 1, clienteId, busquedaSucursal.sucursal_id,
                          datos.descripcion, datos.fecha_creacion, datos.sucursal,
                          some (categorizarQueja cache (datos.descripcion.getD "")).categoria_id,
                          (categorizarQueja cache (datos.descripcion.getD "")).subcategoria_id,
                          (analizar_sentimiento_basico (datos.descripcion.getD "")).sentimiento,
                          (analizar_sentimiento_basico (datos.descripcion.getD "")).score,
                          calcularUrgencia (analizar_sentimiento_basico (datos.descripcion.getD ""))
                            (categorizarQueja cache (datos.descripcion.getD "")),
                          some (extraerPalabrasClave (datos.descripcion.getD "")),
                          some busquedaSucursal.confianza, some busquedaSucursal.candidatas,
                          "google_sheets", raw,
                          some ⟨ahora, analizar_sentimiento_basico (datos.descripcion.getD ""),
                            categorizarQueja cache (datos.descripcion.getD ""), busquedaSucursal,
                            calcularUrgencia
                              (analizar_sentimiento_basico (datos.descripcion.getD ""))
                              (categorizarQueja cache (datos.descripcion.getD "")),
                            extraerPalabrasClave (datos.descripcion.getD "")⟩⟩] }
                      clienteId with
                  | error e => simp [hst] at h
                  | ok t3 =>
                      simp only [hst] at h
                      cases hi : generarInsightsSiEsNecesario f t3
                          (categorizarQueja cache (datos.descripcion.getD ""))
                          (calcularUrgencia
                            (analizar_sentimiento_basico (datos.descripcion.getD ""))
                            (categorizarQueja cache (datos.descripcion.getD ""))) with
                      | error e => simp [hi] at h
                      | ok t4 =>
                          simp only [hi, Except.ok.injEq, Prod.mk.injEq] at h
                          obtain ⟨hr, ht⟩ := h
                          subst hr
                          subst ht
                          have e1 := quejas_obtenerOCrear hc
                          have e3 := quejas_actualizarEstadisticas hst
                          have e4 := quejas_generarInsights hi
                          refine ⟨rfl, ?_, ?_⟩
                          · simp [e1]
                          · rw [e4, e3]
                            simp [e1]

/-- Claim C1, amended: procesarQuejaConIA of the AI server is all-or-nothing
— for every cache, catalog, submission, initial state and failure pattern,
either some query failed, the returned value is an error (surfaced as a
500 success-false response) and the state is exactly the initial one (the
ROLLBACK undid the customer upsert, complaint insert, stat update and
insight emission), or the call succeeds, the result carries success =
true and the id of the one complaint row added, and the final state holds
exactly one more complaint. -/
theorem c1_atomicidad (cache : List Categoria) (catalogo : List Sucursal) (raw : Raw)
    (ahora : Int) (db : DB) (f : FailSpec) :
    (∃ e, (procesarQuejaConIA cache catalogo raw ahora db f).1 = .error e
        ∧ (procesarQuejaConIA cache catalogo raw ahora db f).2 = db
        ∧ respuestaWebhook (procesarQuejaConIA cache catalogo raw ahora db f).1
          = (500, false))
      ∨ (∃ r, (procesarQuejaConIA cache catalogo raw ahora db f).1 = .ok r
          ∧ r.success = true
          ∧ r.queja_id = db.quejas.length + 1
          ∧ (procesarQuejaConIA cache catalogo raw ahora db f).2.quejas.length
            = db.quejas.length + 1
          ∧ respuestaWebhook (procesarQuejaConIA cache catalogo raw ahora db f).1
            = (200, true)) := by
  by_cases hb : f.failBegin = true
  · left
    exact ⟨"BEGIN", by simp [procesarQuejaConIA, hb],
      by simp [procesarQuejaConIA, hb],
      by simp [procesarQuejaConIA, hb, respuestaWebhook]⟩
  · cases hr : runPipeline cache catalogo raw ahora db f with
    | error e =>
        left
        exact ⟨e, by simp [procesarQuejaConIA, hb, hr],
          by simp [procesarQuejaConIA, hb, hr],
          by simp [procesarQuejaConIA, hb, hr, respuestaWebhook]⟩
    | ok rt =>
        obtain ⟨r, t⟩ := rt
        by_cases hc : f.failCommit = true
        · left
          exact ⟨"COMMIT", by simp [procesarQuejaConIA, hb, hr, hc],
            by simp [procesarQuejaConIA, hb, hr, hc],
            by simp [procesarQuejaConIA, hb, hr, hc, respuestaWebhook]⟩
        · right
          obtain ⟨h1, h2, h3⟩ := runPipeline_ok hr
          exact ⟨r, by simp [procesarQuejaConIA, hb, hr, hc], h1, h2,
            by simp [procesarQuejaConIA, hb, hr, hc, h3],
            by simp [procesarQuejaConIA, hb, hr, hc, respuestaWebhook]⟩

/-! ## The basic webhook server (src/unnamed/part_000): no transaction —
its inserts go straight to the database, so a later failure in the same
request leaves them in place. -/

/-- The anonymous-customer INSERT of the basic webhook:
`INSERT INTO clientes (nombre)` with the name defaulting to Cliente Anónimo. -/
def clienteAnonimoSimple (f : FailSpec) (db : DB) (nombre : Option JSVal) :
    Except String (Nat × DB) :=
  if f.failClienteInsert then .error "INSERT INTO clientes"
  else
    let nuevoId := db.clientes.length + 1
    let nombreFinal :=
      (jsOr nombre (some (.vstr "Cliente Anónimo"))).getD (.vstr "Cliente Anónimo")
    .ok (nuevoId, { db with clientes := db.clientes ++
      [⟨nuevoId, some (jsToString nombreFinal), none, none, 0⟩] })

/-- Step 3 of the basic webhook: with a truthy phone that is not the edna
placeholder, look up by exact phone, else insert (nombre, telefono);
otherwise insert the anonymous customer.  The raw phone value is used
as-is. -/
def clienteSimple (f : FailSpec) (db : DB) (nombre telefono : Option JSVal) :
    Except String (Nat × DB) :=
  match telefono with
  | some v =>
      if jsTruthy v && !(v == JSVal.vstr "edna") then
        if f.failClienteSelect then .error "SELECT id FROM clientes"
        else
          match db.clientes.find? (fun c => c.telefono == some (jsToString v)) with
          | some c => .ok (c.id, db)
          | none =>
              if f.failClienteInsert then .error "INSERT INTO clientes"
              else
                let nuevoId := db.clientes.length + 1
                .ok (nuevoId, { db with clientes := db.clientes ++
                  [⟨nuevoId, nombre.map jsToString, some (jsToString v), none, 0⟩] })
      else clienteAnonimoSimple f db nombre
  | none => clienteAnonimoSimple f db nombre

/-- The webhook of the basic server: sentiment lookup, one-row LIKE branch
search, customer resolution, simple urgency, complaint insert — all
without BEGIN/COMMIT, each write applied directly.  A thrown error is
answered with a 500 success-false response and whatever writes already
happened remain.  A missing or non-string description reaches
`descripcion.toLowerCase()` in the urgency step and throws. -/
def webhookSimple (catalogo : List Sucursal) (raw : Raw) (ahora : Int) (db : DB)
    (f : FailSpec) : (Nat × Bool) × DB :=
  if f.failSentiment then ((500, false), db)
  else
    let sentimiento := analizar_sentimiento_basico ((raw.descripcion.map jsToString).getD "")
    let necesitaBuscar := match raw.sucursal with
      | some v => jsTruthy v
      | none => false
    if necesitaBuscar && f.failBuscar then ((500, false), db)
    else
      let hint := sqlLower (jsToString (raw.sucursal.getD (.vstr "")))
      let sucursalId : Option Nat :=
        if necesitaBuscar then
          (catalogo.find? (fun s =>
            containsSub (sqlLower s.nombre) hint
              || containsSub (sqlLower s.municipio) hint)).map (fun s => s.id)
        else none
      match clienteSimple f db raw.nombre raw.telefono with
      | .error _ => ((500, false), db)
      | .ok (clienteId, db1) =>
          match raw.descripcion with
          | some (.vstr s) =>
              let urgencia := urgenciaSimple sentimiento s
              if f.failQuejaInsert then ((500, false), db1)
              else
                let quejaId := db1.quejas.length + 1
                ((200, true), { db1 with quejas := db1.quejas ++
                  [⟨quejaId, clienteId, sucursalId, some s, ahora,
                    raw.sucursal.map jsToString, none, none,
                    sentimiento.sentimiento, sentimiento.score, urgencia,
                    none, none, none, "google_sheets", raw, none⟩] })
          | _ => ((500, false), db1)

/-- The submission of the C1 counterexample: a new customer with a phone
and a harmless description. -/
def rawContraejemplo : Raw :=
  { nombre := some (.vstr "Ana"), telefono := some (.vstr "5512345678"),
    descripcion := some (.vstr "todo bien") }

/-- Failure pattern: only the complaint INSERT fails. -/
def fallaInsertQueja : FailSpec := { failQuejaInsert := true }

/-- The empty initial state. -/
def dbVacia : DB := ⟨[], [], []⟩

/-- Claim C1, counterexample: in the basic webhook, when the complaint
INSERT fails after the customer INSERT succeeded, the failure is answered
with a 500 error but the freshly created customer row remains — the
customer upsert is not undone, so submit is not all-or-nothing. -/
theorem c1_contraejemplo :
    (webhookSimple [] rawContraejemplo 0 dbVacia fallaInsertQueja).1 = (500, false)
      ∧ (webhookSimple [] rawContraejemplo 0 dbVacia fallaInsertQueja).2.clientes
        = [⟨1, some "Ana", some "5512345678", none, 0⟩]
      ∧ (webhookSimple [] rawContraejemplo 0 dbVacia fallaInsertQueja).2.clientes
        ≠ dbVacia.clientes := by
  refine ⟨rfl, rfl, by decide⟩

end EplQuejas
